import Mathlib

/-!
Shallow embedding of the media-transcriber server (`src/index.js`).

External effects (the ytdl-core download, the yt-dlp fallback, the ffmpeg
conversion, the Groq transcription and chat-completion calls, and unlink
failures) are oracles supplied in an environment record; the filesystem is a
list of existing paths.  Control flow, error-message construction, regex
tests, the CSV serialization and the response bodies are translated from the
source.
-/

namespace MediaServer

/-- JS string truthiness for an optional string field: `undefined`/`null` and
the empty string are falsy. -/
def truthy : Option String → Bool
  | none => false
  | some s => !(s == "")

/-- Does `pat` occur at the start of `hay`? (character lists) -/
def beginsWith : List Char → List Char → Bool
  | [], _ => true
  | _ :: _, [] => false
  | p :: ps, c :: cs => (p == c) && beginsWith ps cs

/-- Does `pat` occur anywhere inside `hay`? -/
def hasSub (pat : List Char) : List Char → Bool
  | [] => beginsWith pat []
  | c :: cs => beginsWith pat (c :: cs) || hasSub pat cs

/-- Case-sensitive substring test, modelling a plain-regex `test`. -/
def containsSub (s pat : String) : Bool := hasSub pat.data s.data

/-- ASCII lower-casing of one character, as the `i` regex flag compares
letters. -/
def lowerChar (c : Char) : Char :=
  if 'A' ≤ c && c ≤ 'Z' then Char.ofNat (c.toNat + 32) else c

/-- Case-insensitive substring test, modelling a `/.../i` regex `test`. -/
def containsSubCI (s pat : String) : Bool :=
  hasSub (pat.data.map lowerChar) (s.data.map lowerChar)

/-- The `/Could not extract functions/i` test in `downloadYoutube`. -/
def decipherTest (msg : String) : Bool :=
  containsSubCI msg "Could not extract functions"

/-- The filesystem: the list of existing file paths (paths are unique). -/
def FS := List String
deriving DecidableEq, Repr

instance : Membership String FS := inferInstanceAs (Membership String (List String))

/-- `fs.existsSync p` -/
def existsSync (fs : FS) (p : String) : Bool := (fs : List String).contains p

/-- Remove a path from the filesystem. -/
def fsRemove (fs : FS) (p : String) : FS := (fs : List String).filter (fun q => q != p)

/-- `fs.unlinkSync p`: throws on a missing file or on an injected fault. -/
def unlinkSync (fails : String → Bool) (fs : FS) (p : String) : Except String FS :=
  if !(existsSync fs p) then .error ("ENOENT: no such file " ++ p)
  else if fails p then .error ("EPERM: operation not permitted " ++ p)
  else .ok (fsRemove fs p)

/-- The body of `safeUnlink` before its `try/catch`: skip falsy paths, unlink
only when the file exists.  (`if (!filePath) return; if (existsSync) unlinkSync`.) -/
def safeUnlinkBody (fails : String → Bool) (filePath : Option String) (fs : FS) :
    Except String FS :=
  match filePath with
  | none => .ok fs
  | some p =>
    if p == "" then .ok fs
    else if existsSync fs p then unlinkSync fails fs p
    else .ok fs

/-- `safeUnlink`: the body wrapped in `try/catch`; an unlink error is logged
and swallowed, leaving the filesystem as it was. -/
def safeUnlink (fails : String → Bool) (filePath : Option String) (fs : FS) : FS :=
  match safeUnlinkBody fails filePath fs with
  | .ok fs2 => fs2
  | .error _ => fs

/-- `path.join(TMP_DIR, ...)` base directory. -/
def tmpDir : String := "tmp"

/-- `path.join(TMP_DIR, id + ".mp4")` -/
def mp4PathOf (id : String) : String := tmpDir ++ "/" ++ id ++ ".mp4"

/-- `path.join(TMP_DIR, id + ".wav")` -/
def wavPathOf (id : String) : String := tmpDir ++ "/" ++ id ++ ".wav"

/-- Oracles for `downloadYoutube`: URL validation, the ytdl-core attempt
(`.ok ()` writes `id.mp4`; `.error msg` is the thrown message), availability
of the optional yt-dlp module, and the yt-dlp attempt (`.ok p` produces file
`p`; `.error e` is the thrown message). -/
structure YtEnv where
  validURL : Bool
  primary : Except String Unit
  ytdlpAvailable : Bool
  fallback : Except String String

/-- The final throw of `downloadYoutube` when ytdl-core hit the decipher
signature and no fallback is installed. -/
def signatureChangeMsg : String :=
  "ytdl-core failed to download (signature change). Install/upgrade ytdl-core or add youtube-dl-exec (yt-dlp) as fallback."

/-- `downloadYoutube(url, id)` with its filesystem effect: validate the URL,
try ytdl-core (writing `tmp/id.mp4`), and on any ytdl-core failure fall back
to yt-dlp when it is available; without a fallback, a non-decipher failure is
wrapped as `YouTube download failed: msg` and a decipher failure raises the
upgrade instruction. -/
def downloadYoutube (env : YtEnv) (id : String) (fs : FS) :
    Except String (String × FS) :=
  if !env.validURL then .error "Invalid YouTube URL"
  else
    match env.primary with
    | .ok _ => .ok (mp4PathOf id, mp4PathOf id :: fs)
    | .error msg =>
      let decipherIssue := decipherTest msg
      if !decipherIssue && !env.ytdlpAvailable then
        .error ("YouTube download failed: " ++ msg)
      else if env.ytdlpAvailable then
        match env.fallback with
        | .ok p => .ok (p, p :: fs)
        | .error e => .error ("yt-dlp fallback failed: " ++ e)
      else .error signatureChangeMsg

/-- The raw transcription object returned by the hosted service
(`verbose_json`); only the optional `text` field is inspected by the handler. -/
structure Transcription where
  text : Option String
deriving DecidableEq, Repr

/-- The ffmpeg output options of `convertToWav`, from the source. -/
def convertToWavOutputOptions : List String :=
  ["-vn", "-sn", "-y", "-ac 1", "-ar 16000", "-f wav", "-acodec pcm_s16le"]

/-- `convertToWav(inputPath, outputPath)` with its oracle: on success the
promise resolves with `outputPath` and the WAV file exists; on error nothing
is created. -/
def convertToWav (res : Except String Unit) (outputPath : String) (fs : FS) :
    Except String (String × FS) :=
  match res with
  | .ok _ => .ok (outputPath, outputPath :: fs)
  | .error msg => .error msg

/-- Events observable in one `/api/transcribe` request: the call to
`downloadYoutube`, a `convertToWav` call (input and output paths), and a
hosted-transcription call (input path). -/
inductive TEvent where
  | download (url : String)
  | convert (input output : String)
  | transcribeCall (wav : String)
deriving DecidableEq, Repr

/-- Responses of `/api/transcribe`. -/
inductive TResponse where
  | badRequest (error : String)
  | ok (id : String) (text : String) (transcription : Transcription)
  | serverError (error details : String) (hint : Option String)
deriving DecidableEq, Repr

def TResponse.isBadRequest : TResponse → Bool
  | .badRequest _ => true
  | _ => false

/-- The hint attached to a 500 response exactly when the details match the
`/ytdl-core failed/` regex. -/
def hintText : String :=
  "Try: npm i ytdl-core@latest. If it persists, install yt-dlp fallback: npm i youtube-dl-exec and rerun."

def hintOf (details : String) : Option String :=
  if containsSub details "ytdl-core failed" then some hintText else none

/-- The catch branch of `/api/transcribe`. -/
def transcribeError (details : String) : TResponse :=
  .serverError "Transcription failed" details (hintOf details)

/-- The request as the handler sees it: the optional `youtubeUrl` body field
and the path of a multer-uploaded file (`req.file ? req.file.path : null`). -/
structure TReq where
  youtubeUrl : Option String
  file : Option String

/-- Environment of one `/api/transcribe` request: the download oracles, the
ffmpeg outcome, the transcription outcome, and the unlink fault oracle. -/
structure TEnv where
  yt : YtEnv
  convertResult : Except String Unit
  transcribeResult : Except String Transcription
  unlinkFails : String → Bool

/-- The tail of the `try` block shared by both input sources: set
`wavPath = tmp/id.wav`, convert, transcribe, and build the success body
`\x7b id, text: transcription?.text || "", transcription \x7d`.  Returns the
response, the final value of the `wavPath` variable, the event trace and the
filesystem. -/
def transcribePipeline (conv : Except String Unit) (trans : Except String Transcription)
    (id workingInputPath : String) (fs : FS) (ev : List TEvent) :
    TResponse × Option String × List TEvent × FS :=
  let wav := wavPathOf id
  let ev := ev ++ [TEvent.convert workingInputPath wav]
  match convertToWav conv wav fs with
  | .error msg => (transcribeError msg, some wav, ev, fs)
  | .ok (_, fs1) =>
    let ev := ev ++ [TEvent.transcribeCall wav]
    match trans with
    | .error msg => (transcribeError msg, some wav, ev, fs1)
    | .ok tr => (TResponse.ok id (tr.text.getD "") tr, some wav, ev, fs1)

/-- The `try` block of `/api/transcribe` (everything before the `finally`):
choose the input source — a truthy `youtubeUrl` wins over an uploaded file,
neither yields the 400 response — then run the pipeline. -/
def transcribeTry (req : TReq) (yt : YtEnv) (conv : Except String Unit)
    (trans : Except String Transcription) (id : String) (fs0 : FS) :
    TResponse × Option String × List TEvent × FS :=
  if truthy req.youtubeUrl then
    let ev := [TEvent.download (req.youtubeUrl.getD "")]
    match downloadYoutube yt id fs0 with
    | .error msg => (transcribeError msg, none, ev, fs0)
    | .ok (wip, fs1) => transcribePipeline conv trans id wip fs1 ev
  else if truthy req.file then
    transcribePipeline conv trans id (req.file.getD "") fs0 []
  else
    (TResponse.badRequest "Provide a YouTube URL or upload an audio file.", none, [], fs0)

/-- The `POST /api/transcribe` handler.  `fs0` is the filesystem after multer
stored any uploaded file.  The local `mp4Path` of the source is declared and
initialised to `null` but never assigned anywhere in the handler; the `finally`
block runs `safeUnlink` on `mp4Path`, `wavPath` and `uploadedFilePath` (but not
on `workingInputPath`).  Returns the response, the event trace and the final
filesystem. -/
def transcribeHandler (req : TReq) (env : TEnv) (id : String) (fs0 : FS) :
    TResponse × List TEvent × FS :=
  let uploadedFilePath := req.file
  let mp4PathVar : Option String := none
  match transcribeTry req env.yt env.convertResult env.transcribeResult id fs0 with
  | (resp, wavPathVar, ev, fs1) =>
    let fs2 := safeUnlink env.unlinkFails mp4PathVar fs1
    let fs3 := safeUnlink env.unlinkFails wavPathVar fs2
    let fs4 := safeUnlink env.unlinkFails uploadedFilePath fs3
    (resp, ev, fs4)

/-- A chat message forwarded to the completion API. -/
structure Message where
  role : String
  content : String
deriving DecidableEq, Repr

/-- The system prompt of `/api/qa`, verbatim from the source. -/
def qaSystemPrompt : String :=
  "You are a professional teaching assistant. Answer strictly based on the provided transcript. If the transcript does not contain the answer, say: \x27I don\x27t know based on the transcript.\x27 Produce a polished, executive-style response using GitHub-flavored markdown with a clear structure:\n\n# Title\n## Executive Summary\n- 3–6 bullets\n\n## Key Insights\n- Bulleted points\n\n## Actionable Recommendations\n1. Numbered steps\n\n## Notes\n- Assumptions, constraints, or caveats\n\nTone: concise, professional, and objective. No chit-chat."

/-- The message list `/api/qa` builds: the system prompt and the user message
interpolating the transcript and the question. -/
def qaMessages (transcript question : String) : List Message :=
  [ { role := "system", content := qaSystemPrompt },
    { role := "user",
      content := "Transcript:\n" ++ transcript ++ "\n\nQuestion: " ++ question } ]

/-- Responses of `/api/qa`. -/
inductive QResponse where
  | badRequest (error : String)
  | ok (answer : String)
  | serverError (error details : String)
deriving DecidableEq, Repr

def QResponse.isBadRequest : QResponse → Bool
  | .badRequest _ => true
  | _ => false

/-- The chat-completion oracle: `.error e` is a thrown API error; `.ok c` is a
completion whose `choices[0]?.message?.content` is `c` (possibly absent). -/
def ChatOracle := List Message → Except String (Option String)

/-- The `POST /api/qa` handler.  Returns the response and the list of
chat-completion requests forwarded during the request. -/
def qaHandler (question transcript : Option String) (chat : ChatOracle) :
    QResponse × List (List Message) :=
  if !truthy question || !truthy transcript then
    (QResponse.badRequest "Missing \x27question\x27 or \x27transcript\x27 in body.", [])
  else
    let msgs := qaMessages (transcript.getD "") (question.getD "")
    match chat msgs with
    | .error e => (QResponse.serverError "QA failed" e, [msgs])
    | .ok c => (QResponse.ok (c.getD ""), [msgs])

/-- JS `content.split(/\r?\n/)` on character lists: a separator is a lone LF
or a CRLF pair; a CR not followed by LF is ordinary text. -/
def splitLinesAux : List Char → List Char → List (List Char)
  | [], acc => [acc.reverse]
  | '\r' :: '\n' :: rest, acc => acc.reverse :: splitLinesAux rest []
  | '\n' :: rest, acc => acc.reverse :: splitLinesAux rest []
  | c :: rest, acc => splitLinesAux rest (c :: acc)

/-- `content.split(/\r?\n/)` -/
def splitLines (s : String) : List String :=
  (splitLinesAux s.data []).map fun cs => String.mk cs

/-- `l.replace(/"/g, '""')`: double every double quote. -/
def escQuotes : List Char → List Char
  | [] => []
  | c :: rest => if c == '"' then '"' :: '"' :: escQuotes rest else c :: escQuotes rest

/-- One CSV record: the line with quotes doubled, wrapped in double quotes. -/
def csvField (l : String) : String := "\"" ++ String.mk (escQuotes l.data) ++ "\""

/-- The CSV serialization of the export endpoint:
`content.split(/\r?\n/).map(l => quoted-escaped l).join("\n")`. -/
def csvSerialize (content : String) : String :=
  String.intercalate "\n" ((splitLines content).map csvField)

/-- Inverse of the per-record escaping: collapse doubled quotes. -/
def collapseQuotes : List Char → List Char
  | [] => []
  | '"' :: '"' :: rest => '"' :: collapseQuotes rest
  | c :: rest => c :: collapseQuotes rest

/-- Strip the surrounding quotes of a record and collapse doubled quotes. -/
def csvUnescape (s : String) : String :=
  String.mk (collapseQuotes ((s.data.drop 1).dropLast))

/-- Serialized bodies of `/api/export`.  `txt` and `csv` carry the bytes sent;
`json` carries the content wrapped by `JSON.stringify`; `pdf` and `docx` carry
the title/paragraph inputs handed to the external PDFKit and docx encoders. -/
inductive XBody where
  | text (s : String)
  | json (content : String)
  | csv (s : String)
  | pdf (title content : String)
  | docx (paragraphs : List String)
deriving DecidableEq, Repr

/-- Responses of `/api/export`: a 400 error, or a document with a content
type, a `Content-Disposition` header and a body. -/
inductive XResponse where
  | badRequest (error : String)
  | ok (contentType disposition : String) (body : XBody)
deriving DecidableEq, Repr

/-- `filename || "export"` -/
def exportBase (filename : Option String) : String :=
  if truthy filename then filename.getD "" else "export"

def docxContentType : String :=
  "application/vnd.openxmlformats-officedocument.wordprocessingml.document"

/-- The `POST /api/export` handler. -/
def exportHandler (type content filename : Option String) : XResponse :=
  if !truthy type || !truthy content then
    .badRequest "Missing \x27type\x27 or \x27content\x27"
  else
    let ty := type.getD ""
    let c := content.getD ""
    let base := exportBase filename
    if ty == "txt" then
      .ok "text/plain; charset=utf-8" ("attachment; filename=" ++ base ++ ".txt") (.text c)
    else if ty == "json" then
      .ok "application/json" ("attachment; filename=" ++ base ++ ".json") (.json c)
    else if ty == "csv" then
      .ok "text/csv; charset=utf-8" ("attachment; filename=" ++ base ++ ".csv") (.csv (csvSerialize c))
    else if ty == "pdf" then
      .ok "application/pdf" ("attachment; filename=" ++ base ++ ".pdf") (.pdf base c)
    else if ty == "docx" then
      .ok docxContentType ("attachment; filename=" ++ base ++ ".docx") (.docx (splitLines c))
    else
      .badRequest "Unsupported type"

/-! ## Helper lemmas -/

theorem transcribeHandler_fst (req : TReq) (env : TEnv) (id : String) (fs0 : FS) :
    (transcribeHandler req env id fs0).1
      = (transcribeTry req env.yt env.convertResult env.transcribeResult id fs0).1 := rfl

theorem transcribeHandler_trace (req : TReq) (env : TEnv) (id : String) (fs0 : FS) :
    (transcribeHandler req env id fs0).2.1
      = (transcribeTry req env.yt env.convertResult env.transcribeResult id fs0).2.2.1 := rfl

theorem transcribeHandler_fs (req : TReq) (env : TEnv) (id : String) (fs0 : FS) :
    (transcribeHandler req env id fs0).2.2
      = safeUnlink env.unlinkFails req.file
          (safeUnlink env.unlinkFails
            (transcribeTry req env.yt env.convertResult env.transcribeResult id fs0).2.1
            (safeUnlink env.unlinkFails none
              (transcribeTry req env.yt env.convertResult env.transcribeResult id fs0).2.2.2)) := rfl

theorem transcribeError_not_badRequest (d : String) :
    (transcribeError d).isBadRequest = false := rfl

theorem hintOf_isSome (d : String) :
    (hintOf d).isSome = containsSub d "ytdl-core failed" := by
  unfold hintOf; split <;> simp [*]

theorem transcribePipeline_resp_shape (conv : Except String Unit)
    (trans : Except String Transcription) (id wip : String) (fs : FS) (ev : List TEvent) :
    (∃ d, (transcribePipeline conv trans id wip fs ev).1 = transcribeError d
        ∧ (conv = Except.error d ∨ (conv = Except.ok () ∧ trans = Except.error d)))
    ∨ (∃ tr, conv = Except.ok () ∧ trans = Except.ok tr
        ∧ (transcribePipeline conv trans id wip fs ev).1
            = TResponse.ok id (tr.text.getD "") tr) := by
  unfold transcribePipeline convertToWav
  cases conv with
  | error m => exact Or.inl ⟨m, rfl, Or.inl rfl⟩
  | ok u =>
    cases trans with
    | error m => exact Or.inl ⟨m, rfl, Or.inr ⟨rfl, rfl⟩⟩
    | ok tr => exact Or.inr ⟨tr, rfl, rfl, rfl⟩

theorem transcribePipeline_trace_shape (conv : Except String Unit)
    (trans : Except String Transcription) (id wip : String) (fs : FS) (ev : List TEvent) :
    ∃ rest, (transcribePipeline conv trans id wip fs ev).2.2.1
      = ev ++ TEvent.convert wip (wavPathOf id) :: rest := by
  unfold transcribePipeline convertToWav
  cases conv with
  | error m => exact ⟨[], rfl⟩
  | ok u =>
    cases trans with
    | error m => exact ⟨[TEvent.transcribeCall (wavPathOf id)], by simp⟩
    | ok tr => exact ⟨[TEvent.transcribeCall (wavPathOf id)], by simp⟩

theorem transcribePipeline_conv_error (m : String) (trans : Except String Transcription)
    (id wip : String) (fs : FS) (ev : List TEvent) :
    (transcribePipeline (Except.error m) trans id wip fs ev).1 = transcribeError m := rfl

theorem transcribePipeline_trans_error (m : String) (id wip : String) (fs : FS)
    (ev : List TEvent) :
    (transcribePipeline (Except.ok ()) (Except.error m) id wip fs ev).1
      = transcribeError m := rfl

theorem transcribePipeline_all_ok (tr : Transcription) (id wip : String) (fs : FS)
    (ev : List TEvent) :
    (transcribePipeline (Except.ok ()) (Except.ok tr) id wip fs ev).1
      = TResponse.ok id (tr.text.getD "") tr := rfl

theorem transcribeTry_shape (req : TReq) (yt : YtEnv) (conv : Except String Unit)
    (trans : Except String Transcription) (id : String) (fs0 : FS) :
    (truthy req.youtubeUrl = false ∧ truthy req.file = false
      ∧ transcribeTry req yt conv trans id fs0
          = (TResponse.badRequest "Provide a YouTube URL or upload an audio file.", none, [], fs0))
    ∨ (truthy req.youtubeUrl = true ∧ ∃ msg, downloadYoutube yt id fs0 = Except.error msg
          ∧ transcribeTry req yt conv trans id fs0
              = (transcribeError msg, none, [TEvent.download (req.youtubeUrl.getD "")], fs0))
    ∨ (truthy req.youtubeUrl = true ∧ ∃ wip fs1, downloadYoutube yt id fs0 = Except.ok (wip, fs1)
          ∧ transcribeTry req yt conv trans id fs0
              = transcribePipeline conv trans id wip fs1 [TEvent.download (req.youtubeUrl.getD "")])
    ∨ (truthy req.youtubeUrl = false ∧ truthy req.file = true
          ∧ transcribeTry req yt conv trans id fs0
              = transcribePipeline conv trans id (req.file.getD "") fs0 []) := by
  cases hurl : truthy req.youtubeUrl with
  | true =>
    cases hdl : downloadYoutube yt id fs0 with
    | error m =>
      exact Or.inr (Or.inl ⟨rfl, m, rfl, by simp [transcribeTry, hurl, hdl]⟩)
    | ok pr =>
      obtain ⟨wip, fs1⟩ := pr
      exact Or.inr (Or.inr (Or.inl ⟨rfl, wip, fs1, rfl, by simp [transcribeTry, hurl, hdl]⟩))
  | false =>
    cases hfile : truthy req.file with
    | true =>
      exact Or.inr (Or.inr (Or.inr ⟨rfl, rfl, by simp [transcribeTry, hurl, hfile]⟩))
    | false =>
      exact Or.inl ⟨rfl, rfl, by simp [transcribeTry, hurl, hfile]⟩

/-! ## Claim theorems -/

/-- **C10.** `safeUnlink` is total and never throws: a null path is a no-op,
a missing file is left alone, an existing file is deleted when the unlink
succeeds, any unlink error is caught (the filesystem stays as it was, nothing
propagates), and the `/api/transcribe` response is independent of the unlink
fault oracle, so cleanup can never alter the response chosen by the handler. -/
theorem safeUnlink_total_and_harmless (fails : String → Bool) (fs : FS) :
    (safeUnlink fails none fs = fs)
    ∧ (∀ p : String, existsSync fs p = false → safeUnlink fails (some p) fs = fs)
    ∧ (∀ p : String, p ≠ "" → existsSync fs p = true → fails p = false →
        safeUnlink fails (some p) fs = fsRemove fs p)
    ∧ (∀ (p : String) (e : String), safeUnlinkBody fails (some p) fs = .error e →
        safeUnlink fails (some p) fs = fs)
    ∧ (∀ (req : TReq) (env : TEnv) (id : String) (fs0 : FS) (g : String → Bool),
        (transcribeHandler req { env with unlinkFails := g } id fs0).1
          = (transcribeHandler req env id fs0).1) := by
  refine ⟨rfl, ?_, ?_, ?_, ?_⟩
  · intro p h
    by_cases hp : p = ""
    · subst hp; rfl
    · simp [safeUnlink, safeUnlinkBody, h, hp]
  · intro p hne hex hf
    simp [safeUnlink, safeUnlinkBody, unlinkSync, hex, hf, hne]
  · intro p e h
    simp [safeUnlink, h]
  · intro req env id fs0 g
    rfl

/-- Witness for C10: deleting an existing, unguarded file removes it. -/
theorem safeUnlink_total_and_harmless_witness :
    safeUnlink (fun _ => false) (some "tmp/a.wav") ["tmp/a.wav", "tmp/b.wav"]
      = fsRemove ["tmp/a.wav", "tmp/b.wav"] "tmp/a.wav" :=
  (safeUnlink_total_and_harmless (fun _ => false) ["tmp/a.wav", "tmp/b.wav"]).2.2.1
    "tmp/a.wav" (by decide) (by rfl) (by rfl)

/-- **C2 (counterexample).** The secondary method is not reserved for the
decipher signature: with yt-dlp available, a primary failure whose message
does not match `Could not extract functions` is not propagated — the fallback
runs and its result is returned. -/
theorem downloadYoutube_fallback_despite_other_error :
    decipherTest "network down" = false
    ∧ downloadYoutube ⟨true, Except.error "network down", true, Except.ok "tmp/v1.mp3"⟩ "v1" []
        = Except.ok ("tmp/v1.mp3", ["tmp/v1.mp3"])
    ∧ downloadYoutube ⟨true, Except.error "network down", true, Except.error "boom"⟩ "v1" []
        = Except.error ("yt-dlp fallback failed: boom") :=
  ⟨rfl, rfl, rfl⟩

/-- **C2 (amended).** On a valid URL whose primary (ytdl-core) attempt fails:
when yt-dlp is available the fallback is attempted whatever the failure
message; only when yt-dlp is unavailable is no fallback attempted, and then a
failure not matching the decipher pattern propagates as
`YouTube download failed: msg` while a matching failure raises the upgrade
instruction. -/
theorem downloadYoutube_fallback_policy (env : YtEnv) (id : String) (fs : FS)
    (msg : String) (hv : env.validURL = true) (hp : env.primary = Except.error msg) :
    (env.ytdlpAvailable = true → downloadYoutube env id fs =
        (match env.fallback with
         | Except.ok p => Except.ok (p, p :: fs)
         | Except.error e => Except.error ("yt-dlp fallback failed: " ++ e)))
    ∧ (env.ytdlpAvailable = false → decipherTest msg = false →
        downloadYoutube env id fs = Except.error ("YouTube download failed: " ++ msg))
    ∧ (env.ytdlpAvailable = false → decipherTest msg = true →
        downloadYoutube env id fs = Except.error signatureChangeMsg) := by
  unfold downloadYoutube
  rw [hv, hp]
  refine ⟨?_, ?_, ?_⟩
  · intro hy; simp [hy]
  · intro hy hd; simp [hy, hd]
  · intro hy hd; simp [hy, hd]

/-- Witness for C2 (amended): without yt-dlp, a non-matching failure is
propagated as the wrapped primary error. -/
theorem downloadYoutube_fallback_policy_witness :
    downloadYoutube ⟨true, Except.error "oops", false, Except.error "x"⟩ "v2" []
      = Except.error ("YouTube download failed: " ++ "oops") :=
  (downloadYoutube_fallback_policy ⟨true, Except.error "oops", false, Except.error "x"⟩
    "v2" [] "oops" rfl rfl).2.1 rfl (by decide)

/-- **C1.** Contrary to the claim, the final cleanup does not empty the
temporary directory for a YouTube request: the source declares `mp4Path`,
unlinks it in `finally`, but never assigns it — the downloaded file path lives
in `workingInputPath`, which is never unlinked.  On a fully successful
YouTube transcription the downloaded `tmp/id1.mp4` is still present after the
handler finishes. -/
theorem transcribe_leaks_downloaded_file :
    (transcribeHandler ⟨some "https://youtu.be/x", none⟩
        ⟨⟨true, Except.ok (), false, Except.error "unused"⟩, Except.ok (),
          Except.ok ⟨some "hello"⟩, fun _ => false⟩ "id1" [])
      = (TResponse.ok "id1" "hello" ⟨some "hello"⟩,
         [TEvent.download "https://youtu.be/x",
          TEvent.convert (mp4PathOf "id1") (wavPathOf "id1"),
          TEvent.transcribeCall (wavPathOf "id1")],
         [mp4PathOf "id1"])
    ∧ existsSync (transcribeHandler ⟨some "https://youtu.be/x", none⟩
        ⟨⟨true, Except.ok (), false, Except.error "unused"⟩, Except.ok (),
          Except.ok ⟨some "hello"⟩, fun _ => false⟩ "id1" []).2.2
        (mp4PathOf "id1") = true :=
  ⟨rfl, rfl⟩

/-- **C5.** `/api/transcribe` answers 400 exactly when the request carries
neither a (non-empty) `youtubeUrl` nor an uploaded file; with at least one
input the handler never rejects and the pipeline is entered (the event trace
is non-empty). -/
theorem transcribe_400_iff_no_input (req : TReq) (env : TEnv) (id : String) (fs0 : FS) :
    ((transcribeHandler req env id fs0).1.isBadRequest
        = (!truthy req.youtubeUrl && !truthy req.file))
    ∧ ((truthy req.youtubeUrl || truthy req.file) = true →
        (transcribeHandler req env id fs0).1.isBadRequest = false
        ∧ (transcribeHandler req env id fs0).2.1 ≠ []) := by
  rw [transcribeHandler_fst, transcribeHandler_trace]
  rcases transcribeTry_shape req env.yt env.convertResult env.transcribeResult id fs0 with
    ⟨h1, h2, heq⟩ | ⟨h1, msg, hdl, heq⟩ | ⟨h1, wip, fs1, hdl, heq⟩ | ⟨h1, h2, heq⟩
  · rw [heq]; simp [h1, h2, TResponse.isBadRequest]
  · rw [heq]; simp [h1, transcribeError, TResponse.isBadRequest]
  · rw [heq]
    have hbad : (transcribePipeline env.convertResult env.transcribeResult id wip fs1
        [TEvent.download (req.youtubeUrl.getD "")]).1.isBadRequest = false := by
      rcases transcribePipeline_resp_shape env.convertResult env.transcribeResult id wip fs1
          [TEvent.download (req.youtubeUrl.getD "")] with ⟨d, hd, _⟩ | ⟨tr, _, _, hok⟩
      · rw [hd]; rfl
      · rw [hok]; rfl
    obtain ⟨rest, htr⟩ := transcribePipeline_trace_shape env.convertResult
      env.transcribeResult id wip fs1 [TEvent.download (req.youtubeUrl.getD "")]
    rw [hbad, htr]; simp [h1]
  · rw [heq]
    have hbad : (transcribePipeline env.convertResult env.transcribeResult id
        (req.file.getD "") fs0 []).1.isBadRequest = false := by
      rcases transcribePipeline_resp_shape env.convertResult env.transcribeResult id
          (req.file.getD "") fs0 [] with ⟨d, hd, _⟩ | ⟨tr, _, _, hok⟩
      · rw [hd]; rfl
      · rw [hok]; rfl
    obtain ⟨rest, htr⟩ := transcribePipeline_trace_shape env.convertResult
      env.transcribeResult id (req.file.getD "") fs0 []
    rw [hbad, htr]; simp [h1, h2]

/-- Witness for C5: with only an uploaded file the request is not rejected. -/
theorem transcribe_400_iff_no_input_witness :
    (transcribeHandler ⟨none, some "tmp/u.mp3"⟩
        ⟨⟨true, Except.ok (), false, Except.error "x"⟩, Except.ok (),
          Except.ok ⟨none⟩, fun _ => false⟩ "idW" ["tmp/u.mp3"]).1.isBadRequest = false :=
  ((transcribe_400_iff_no_input ⟨none, some "tmp/u.mp3"⟩
      ⟨⟨true, Except.ok (), false, Except.error "x"⟩, Except.ok (),
        Except.ok ⟨none⟩, fun _ => false⟩ "idW" ["tmp/u.mp3"]).2 (by decide)).1

/-- **C7.** Every 500 response of `/api/transcribe` carries the error string
`Transcription failed`, its `details` are the message of the failing stage
(download, conversion, or transcription), and the `hint` field is present
exactly when the details contain the `ytdl-core failed` signature. -/
theorem transcribe_500_shape (req : TReq) (env : TEnv) (id : String) (fs0 : FS) :
    (∀ e d h, (transcribeHandler req env id fs0).1 = TResponse.serverError e d h →
        e = "Transcription failed" ∧ h = hintOf d
        ∧ h.isSome = containsSub d "ytdl-core failed")
    ∧ (∀ msg, truthy req.youtubeUrl = true → downloadYoutube env.yt id fs0 = Except.error msg →
        (transcribeHandler req env id fs0).1 = transcribeError msg)
    ∧ (∀ msg, env.convertResult = Except.error msg →
        ((truthy req.youtubeUrl = true ∧ ∃ pr, downloadYoutube env.yt id fs0 = Except.ok pr)
          ∨ (truthy req.youtubeUrl = false ∧ truthy req.file = true)) →
        (transcribeHandler req env id fs0).1 = transcribeError msg)
    ∧ (∀ msg, env.convertResult = Except.ok () → env.transcribeResult = Except.error msg →
        ((truthy req.youtubeUrl = true ∧ ∃ pr, downloadYoutube env.yt id fs0 = Except.ok pr)
          ∨ (truthy req.youtubeUrl = false ∧ truthy req.file = true)) →
        (transcribeHandler req env id fs0).1 = transcribeError msg) := by
  have hfst := transcribeHandler_fst req env id fs0
  refine ⟨?_, ?_, ?_, ?_⟩
  · intro e d h hres
    rw [hfst] at hres
    have hshape : (transcribeTry req env.yt env.convertResult env.transcribeResult id fs0).1
          = TResponse.badRequest "Provide a YouTube URL or upload an audio file."
        ∨ (∃ d0, (transcribeTry req env.yt env.convertResult env.transcribeResult id fs0).1
            = transcribeError d0) := by
      rcases transcribeTry_shape req env.yt env.convertResult env.transcribeResult id fs0 with
        ⟨_, _, heq⟩ | ⟨_, msg, _, heq⟩ | ⟨_, wip, fs1, _, heq⟩ | ⟨_, _, heq⟩
      · rw [heq]; exact Or.inl rfl
      · rw [heq]; exact Or.inr ⟨msg, rfl⟩
      · rw [heq]
        rcases transcribePipeline_resp_shape env.convertResult env.transcribeResult id wip fs1
            [TEvent.download (req.youtubeUrl.getD "")] with ⟨d0, hd, _⟩ | ⟨tr, _, _, hok⟩
        · exact Or.inr ⟨d0, hd⟩
        · rw [heq, hok] at hres; cases hres
      · rw [heq]
        rcases transcribePipeline_resp_shape env.convertResult env.transcribeResult id
            (req.file.getD "") fs0 [] with ⟨d0, hd, _⟩ | ⟨tr, _, _, hok⟩
        · exact Or.inr ⟨d0, hd⟩
        · rw [heq, hok] at hres; cases hres
    rcases hshape with hbad | ⟨d0, herr⟩
    · rw [hbad] at hres; cases hres
    · rw [herr] at hres
      unfold transcribeError at hres
      injection hres with he hd hh
      subst hd
      exact ⟨he.symm, hh.symm, by rw [← hh, hintOf_isSome]⟩
  · intro msg hurl hdl
    rw [hfst]
    rcases transcribeTry_shape req env.yt env.convertResult env.transcribeResult id fs0 with
      ⟨h1, _, _⟩ | ⟨_, msg2, hdl2, heq⟩ | ⟨_, wip, fs1, hdl2, _⟩ | ⟨h1, _, _⟩
    · rw [h1] at hurl; cases hurl
    · rw [hdl2] at hdl; injection hdl with hm; subst hm; rw [heq]
    · rw [hdl2] at hdl; cases hdl
    · rw [h1] at hurl; cases hurl
  · intro msg hconv hsrc
    rw [hfst]
    rcases transcribeTry_shape req env.yt env.convertResult env.transcribeResult id fs0 with
      ⟨h1, h2, _⟩ | ⟨hurl2, msg2, hdl2, _⟩ | ⟨_, wip, fs1, hdl2, heq⟩ | ⟨_, _, heq⟩
    · rcases hsrc with ⟨hurl, _⟩ | ⟨_, hfile⟩
      · rw [h1] at hurl; cases hurl
      · rw [h2] at hfile; cases hfile
    · rcases hsrc with ⟨_, pr, hdl⟩ | ⟨h1, _⟩
      · rw [hdl2] at hdl; cases hdl
      · rw [h1] at hurl2; cases hurl2
    · rw [heq, hconv]; exact transcribePipeline_conv_error msg env.transcribeResult id wip fs1 _
    · rw [heq, hconv]; exact transcribePipeline_conv_error msg env.transcribeResult id
        (req.file.getD "") fs0 _
  · intro msg hconv htrans hsrc
    rw [hfst]
    rcases transcribeTry_shape req env.yt env.convertResult env.transcribeResult id fs0 with
      ⟨h1, h2, _⟩ | ⟨h1, msg2, hdl2, _⟩ | ⟨_, wip, fs1, hdl2, heq⟩ | ⟨_, _, heq⟩
    · rcases hsrc with ⟨hurl, _⟩ | ⟨_, hfile⟩
      · rw [h1] at hurl; cases hurl
      · rw [h2] at hfile; cases hfile
    · rcases hsrc with ⟨_, pr, hdl⟩ | ⟨hu, _⟩
      · rw [hdl2] at hdl; cases hdl
      · rw [hu] at h1; cases h1
    · rw [heq, hconv, htrans]
      exact transcribePipeline_trans_error msg id wip fs1 _
    · rw [heq, hconv, htrans]
      exact transcribePipeline_trans_error msg id (req.file.getD "") fs0 _

/-- Witness for C7: a download failure yields the 500 body with the wrapped
message as details. -/
theorem transcribe_500_shape_witness :
    (transcribeHandler ⟨some "u", none⟩
        ⟨⟨true, Except.error "bad thing", false, Except.error "x"⟩, Except.ok (),
          Except.ok ⟨none⟩, fun _ => false⟩ "idW" []).1
      = transcribeError ("YouTube download failed: " ++ "bad thing") :=
  (transcribe_500_shape ⟨some "u", none⟩
      ⟨⟨true, Except.error "bad thing", false, Except.error "x"⟩, Except.ok (),
        Except.ok ⟨none⟩, fun _ => false⟩ "idW" []).2.1
    ("YouTube download failed: " ++ "bad thing") rfl (by rfl)

theorem safeUnlink_not_mem (fails : String → Bool) (p : String) (fs : FS)
    (hp : p ≠ "") (hf : fails p = false) :
    p ∉ (safeUnlink fails (some p) fs : List String) := by
  have hpb : (p == "") = false := by simp [hp]
  unfold safeUnlink safeUnlinkBody
  simp only [hpb, Bool.false_eq_true, if_false]
  cases hex : existsSync fs p with
  | false =>
    simp only [hex, Bool.false_eq_true, if_false]
    intro hmem
    have hcon : existsSync fs p = true := by
      simp [existsSync, List.contains, List.elem_iff, hmem]
    rw [hex] at hcon; cases hcon
  | true =>
    simp only [hex, if_true, unlinkSync, Bool.not_true, Bool.false_eq_true, if_false, hf]
    intro hmem
    have hmf := List.mem_filter.mp hmem
    simp at hmf

theorem transcribePipeline_trace_mem (conv : Except String Unit)
    (trans : Except String Transcription) (id wip : String) (fs : FS) (ev : List TEvent) :
    ∀ e2 ∈ (transcribePipeline conv trans id wip fs ev).2.2.1,
      e2 ∈ ev ∨ e2 = TEvent.convert wip (wavPathOf id)
        ∨ e2 = TEvent.transcribeCall (wavPathOf id) := by
  unfold transcribePipeline convertToWav
  cases conv with
  | error m => intro e2 he2; simp at he2; tauto
  | ok u =>
    cases trans with
    | error m => intro e2 he2; simp at he2; tauto
    | ok tr => intro e2 he2; simp at he2; tauto

/-- **C9.** When a request carries both a truthy `youtubeUrl` and an uploaded
file, the URL wins: every conversion input is the path returned by
`downloadYoutube` (never the uploaded path) and the only transcribed file is
the WAV; still, whatever the outcome, the uploaded file is gone from the
final filesystem. -/
theorem transcribe_url_precedence (req : TReq) (env : TEnv) (id : String) (fs0 : FS)
    (p : String) (hurl : truthy req.youtubeUrl = true) (hfile : req.file = some p)
    (hp : p ≠ "") (hfail : env.unlinkFails p = false) :
    (∀ inp out, TEvent.convert inp out ∈ (transcribeHandler req env id fs0).2.1 →
        ∃ fs1, downloadYoutube env.yt id fs0 = Except.ok (inp, fs1))
    ∧ (∀ w, TEvent.transcribeCall w ∈ (transcribeHandler req env id fs0).2.1 →
        w = wavPathOf id)
    ∧ p ∉ ((transcribeHandler req env id fs0).2.2 : List String) := by
  refine ⟨?_, ?_, ?_⟩
  · intro inp out hmem
    rw [transcribeHandler_trace] at hmem
    rcases transcribeTry_shape req env.yt env.convertResult env.transcribeResult id fs0 with
      ⟨h1, _, _⟩ | ⟨_, msg, hdl, heq⟩ | ⟨_, wip, fs1, hdl, heq⟩ | ⟨h1, _, _⟩
    · rw [h1] at hurl; cases hurl
    · rw [heq] at hmem; simp at hmem
    · rw [heq] at hmem
      rcases transcribePipeline_trace_mem env.convertResult env.transcribeResult id wip fs1
          [TEvent.download (req.youtubeUrl.getD "")] _ hmem with hev | hcv | htc
      · simp at hev
      · injection hcv with hinp hout; subst hinp; exact ⟨fs1, hdl⟩
      · cases htc
    · rw [h1] at hurl; cases hurl
  · intro w hmem
    rw [transcribeHandler_trace] at hmem
    rcases transcribeTry_shape req env.yt env.convertResult env.transcribeResult id fs0 with
      ⟨h1, _, _⟩ | ⟨_, msg, hdl, heq⟩ | ⟨_, wip, fs1, hdl, heq⟩ | ⟨h1, _, _⟩
    · rw [h1] at hurl; cases hurl
    · rw [heq] at hmem; simp at hmem
    · rw [heq] at hmem
      rcases transcribePipeline_trace_mem env.convertResult env.transcribeResult id wip fs1
          [TEvent.download (req.youtubeUrl.getD "")] _ hmem with hev | hcv | htc
      · simp at hev
      · cases hcv
      · injection htc with hw
    · rw [h1] at hurl; cases hurl
  · rw [transcribeHandler_fs, hfile]
    exact safeUnlink_not_mem env.unlinkFails p _ hp hfail

/-- Witness for C9: with both inputs present and everything succeeding, the
uploaded file is absent from the final filesystem. -/
theorem transcribe_url_precedence_witness :
    "tmp/up.mp3" ∉ ((transcribeHandler ⟨some "u", some "tmp/up.mp3"⟩
        ⟨⟨true, Except.ok (), false, Except.error "x"⟩, Except.ok (),
          Except.ok ⟨some "t"⟩, fun _ => false⟩ "idW" ["tmp/up.mp3"]).2.2 : List String) :=
  (transcribe_url_precedence ⟨some "u", some "tmp/up.mp3"⟩
      ⟨⟨true, Except.ok (), false, Except.error "x"⟩, Except.ok (),
        Except.ok ⟨some "t"⟩, fun _ => false⟩ "idW" ["tmp/up.mp3"] "tmp/up.mp3"
      rfl rfl (by decide) rfl).2.2

/-- **C3.** A successful YouTube transcription performs exactly the linear
sequence download → convert → transcribe: the trace is those three events in
order, the conversion targets `tmp/id.wav` with the fixed mono/16 kHz/16-bit
PCM WAV options, and the 200 body carries the id, the text (empty string when
the service returned none) and the raw transcription object. -/
theorem transcribe_success_sequence (req : TReq) (env : TEnv) (id : String) (fs0 : FS)
    (wip : String) (fs1 : FS) (tr : Transcription)
    (hurl : truthy req.youtubeUrl = true)
    (hdl : downloadYoutube env.yt id fs0 = Except.ok (wip, fs1))
    (hconv : env.convertResult = Except.ok ())
    (htrans : env.transcribeResult = Except.ok tr) :
    (transcribeHandler req env id fs0).1 = TResponse.ok id (tr.text.getD "") tr
    ∧ (transcribeHandler req env id fs0).2.1
        = [TEvent.download (req.youtubeUrl.getD ""),
           TEvent.convert wip (wavPathOf id),
           TEvent.transcribeCall (wavPathOf id)]
    ∧ "-ac 1" ∈ convertToWavOutputOptions
    ∧ "-ar 16000" ∈ convertToWavOutputOptions
    ∧ "-acodec pcm_s16le" ∈ convertToWavOutputOptions
    ∧ "-f wav" ∈ convertToWavOutputOptions := by
  rw [transcribeHandler_fst, transcribeHandler_trace]
  rcases transcribeTry_shape req env.yt env.convertResult env.transcribeResult id fs0 with
    ⟨h1, _, _⟩ | ⟨_, msg, hdl2, heq⟩ | ⟨_, wip2, fs12, hdl2, heq⟩ | ⟨h1, _, _⟩
  · rw [h1] at hurl; cases hurl
  · rw [hdl2] at hdl; cases hdl
  · rw [hdl2] at hdl
    injection hdl with hpair
    injection hpair with hwip hfs
    subst hwip; subst hfs
    rw [heq, hconv, htrans]
    refine ⟨rfl, ?_, by decide, by decide, by decide, by decide⟩
    simp [transcribePipeline, convertToWav]
  · rw [h1] at hurl; cases hurl

/-- Witness for C3: the concrete success run. -/
theorem transcribe_success_sequence_witness :
    (transcribeHandler ⟨some "https://youtu.be/x", none⟩
        ⟨⟨true, Except.ok (), false, Except.error "x"⟩, Except.ok (),
          Except.ok ⟨some "hi"⟩, fun _ => false⟩ "id9" []).1
      = TResponse.ok "id9" "hi" ⟨some "hi"⟩ :=
  (transcribe_success_sequence ⟨some "https://youtu.be/x", none⟩
      ⟨⟨true, Except.ok (), false, Except.error "x"⟩, Except.ok (),
        Except.ok ⟨some "hi"⟩, fun _ => false⟩ "id9" []
      (mp4PathOf "id9") [mp4PathOf "id9"] ⟨some "hi"⟩ rfl rfl rfl rfl).1

/-- **C4.** `/api/qa` answers 400 exactly when `question` or `transcript`
fails the non-emptiness check (missing or empty), in which case no completion
request is forwarded; when both pass, exactly one chat-completion request is
forwarded, grounded on the transcript through `qaMessages`, and a successful
completion yields a 200 whose `answer` is the message content, the empty
string when the completion has none. -/
theorem qa_behaviour (question transcript : Option String) (chat : ChatOracle) :
    ((qaHandler question transcript chat).1.isBadRequest
        = (!truthy question || !truthy transcript))
    ∧ ((!truthy question || !truthy transcript) = true →
        (qaHandler question transcript chat).1
          = QResponse.badRequest "Missing \x27question\x27 or \x27transcript\x27 in body."
        ∧ (qaHandler question transcript chat).2 = [])
    ∧ (∀ q t, question = some q → transcript = some t →
        truthy question = true → truthy transcript = true →
        (qaHandler question transcript chat).2 = [qaMessages t q]
        ∧ (∀ c, chat (qaMessages t q) = Except.ok c →
            (qaHandler question transcript chat).1 = QResponse.ok (c.getD ""))) := by
  refine ⟨?_, ?_, ?_⟩
  · cases hg : (!truthy question || !truthy transcript) with
    | true => simp [qaHandler, hg, QResponse.isBadRequest]
    | false =>
      unfold qaHandler
      rw [hg]
      simp only [Bool.false_eq_true, if_false]
      cases chat (qaMessages (transcript.getD "") (question.getD "")) with
      | error e => rfl
      | ok c => rfl
  · intro hg
    simp [qaHandler, hg]
  · intro q t hq ht htq htt
    subst hq; subst ht
    have hg : (!truthy (some q) || !truthy (some t)) = false := by
      rw [htq, htt]; rfl
    constructor
    · unfold qaHandler
      rw [hg]
      simp only [Bool.false_eq_true, if_false, Option.getD_some]
      cases chat (qaMessages t q) with
      | error e => rfl
      | ok c => rfl
    · intro c hc
      unfold qaHandler
      rw [hg]
      simp only [Bool.false_eq_true, if_false, Option.getD_some]
      rw [hc]

/-- Witness for C4: both fields present, one forwarded request, answer equals
the completion content. -/
theorem qa_behaviour_witness :
    (qaHandler (some "why?") (some "because.") (fun _ => Except.ok (some "ans"))).1
      = QResponse.ok ((some "ans").getD "") :=
  ((qa_behaviour (some "why?") (some "because.")
      (fun _ => Except.ok (some "ans"))).2.2 "why?" "because." rfl rfl rfl rfl).2
    (some "ans") rfl

/-- **C6.** `/api/export` answers 400 when `type` or `content` is missing,
400 `Unsupported type` exactly for types outside txt/json/csv/pdf/docx, and
for each supported type returns the serialized content under an attachment
disposition named after the given filename, defaulting to `export`. -/
theorem export_behaviour (type content filename : Option String) :
    ((!truthy type || !truthy content) = true →
        exportHandler type content filename
          = XResponse.badRequest "Missing \x27type\x27 or \x27content\x27")
    ∧ (∀ ty c, type = some ty → content = some c → ty ≠ "" → c ≠ "" →
        (exportHandler type content filename = XResponse.badRequest "Unsupported type"
          ↔ ty ∉ (["txt", "json", "csv", "pdf", "docx"] : List String)))
    ∧ (exportBase none = "export")
    ∧ (exportBase (some "") = "export")
    ∧ (∀ f : String, f ≠ "" → exportBase (some f) = f)
    ∧ (∀ ty c, type = some ty → content = some c → ty ≠ "" → c ≠ "" →
        (ty = "txt" → exportHandler type content filename
            = XResponse.ok "text/plain; charset=utf-8"
                ("attachment; filename=" ++ exportBase filename ++ ".txt") (XBody.text c))
        ∧ (ty = "json" → exportHandler type content filename
            = XResponse.ok "application/json"
                ("attachment; filename=" ++ exportBase filename ++ ".json") (XBody.json c))
        ∧ (ty = "csv" → exportHandler type content filename
            = XResponse.ok "text/csv; charset=utf-8"
                ("attachment; filename=" ++ exportBase filename ++ ".csv")
                (XBody.csv (csvSerialize c)))
        ∧ (ty = "pdf" → exportHandler type content filename
            = XResponse.ok "application/pdf"
                ("attachment; filename=" ++ exportBase filename ++ ".pdf")
                (XBody.pdf (exportBase filename) c))
        ∧ (ty = "docx" → exportHandler type content filename
            = XResponse.ok docxContentType
                ("attachment; filename=" ++ exportBase filename ++ ".docx")
                (XBody.docx (splitLines c)))) := by
  refine ⟨?_, ?_, rfl, rfl, ?_, ?_⟩
  · intro hg; simp [exportHandler, hg]
  · intro ty c hty hc hty0 hc0
    subst hty; subst hc
    have hg : (!truthy (some ty) || !truthy (some c)) = false := by
      simp [truthy, hty0, hc0]
    unfold exportHandler
    rw [hg]
    simp only [Bool.false_eq_true, if_false, Option.getD_some]
    by_cases h1 : ty = "txt"
    · subst h1; simp
    by_cases h2 : ty = "json"
    · subst h2; simp
    by_cases h3 : ty = "csv"
    · subst h3; simp
    by_cases h4 : ty = "pdf"
    · subst h4; simp
    by_cases h5 : ty = "docx"
    · subst h5; simp
    · simp [h1, h2, h3, h4, h5]
  · intro f hf; simp [exportBase, truthy, hf]
  · intro ty c hty hc hty0 hc0
    subst hty; subst hc
    have hg : (!truthy (some ty) || !truthy (some c)) = false := by
      simp [truthy, hty0, hc0]
    refine ⟨?_, ?_, ?_, ?_, ?_⟩ <;> intro h <;> subst h <;>
      simp [exportHandler, hg]

/-- Witness for C6: a csv export with an explicit filename. -/
theorem export_behaviour_witness :
    exportHandler (some "csv") (some "a\nb") (some "notes")
      = XResponse.ok "text/csv; charset=utf-8"
          ("attachment; filename=" ++ exportBase (some "notes") ++ ".csv")
          (XBody.csv (csvSerialize "a\nb")) :=
  ((export_behaviour (some "csv") (some "a\nb") (some "notes")).2.2.2.2.2
    "csv" "a\nb" rfl rfl (by decide) (by decide)).2.2.1 rfl

theorem collapseQuotes_cons_ne (c : Char) (xs : List Char) (hc : c ≠ '"') :
    collapseQuotes (c :: xs) = c :: collapseQuotes xs := by
  rcases xs with _ | ⟨d, ys⟩ <;> simp [collapseQuotes, hc]

theorem collapseQuotes_escQuotes (cs : List Char) :
    collapseQuotes (escQuotes cs) = cs := by
  induction cs with
  | nil => rfl
  | cons c rest ih =>
    by_cases hc : c = '"'
    · subst hc
      rw [show escQuotes ('"' :: rest) = '"' :: '"' :: escQuotes rest by simp [escQuotes]]
      simp [collapseQuotes, ih]
    · have hcb : (c == '"') = false := by simp [hc]
      rw [show escQuotes (c :: rest) = c :: escQuotes rest by simp [escQuotes, hcb]]
      rw [collapseQuotes_cons_ne c _ hc, ih]

theorem stringMk_data (s : String) : String.mk s.data = s := rfl

theorem csvUnescape_csvField (l : String) : csvUnescape (csvField l) = l := by
  unfold csvUnescape csvField
  rw [show ("\"" ++ String.mk (escQuotes l.data) ++ "\"").data
      = '"' :: (escQuotes l.data ++ ['"']) by simp [String.data_append]]
  rw [show ('"' :: (escQuotes l.data ++ ['"'])).drop 1 = escQuotes l.data ++ ['"'] from rfl]
  rw [show (escQuotes l.data ++ ['"']).dropLast = escQuotes l.data by
    simp [List.dropLast_concat]]
  rw [collapseQuotes_escQuotes]

theorem splitLinesAux_cons_ne (c : Char) (cs acc : List Char)
    (h1 : c ≠ '\n') (h2 : c ≠ '\r') :
    splitLinesAux (c :: cs) acc = splitLinesAux cs (c :: acc) := by
  rcases cs with _ | ⟨d, ys⟩ <;> simp [splitLinesAux, h1, h2]

theorem splitLinesAux_LF (rest acc : List Char) :
    splitLinesAux ('\n' :: rest) acc = acc.reverse :: splitLinesAux rest [] := by
  rcases rest with _ | ⟨d, ys⟩ <;> simp [splitLinesAux]

theorem splitLinesAux_CRLF (rest acc : List Char) :
    splitLinesAux ('\r' :: '\n' :: rest) acc = acc.reverse :: splitLinesAux rest [] := by
  simp [splitLinesAux]

theorem splitLinesAux_append_LF (a : List Char) (rest acc : List Char)
    (h : ∀ ch ∈ a, ch ≠ '\n' ∧ ch ≠ '\r') :
    splitLinesAux (a ++ '\n' :: rest) acc = (acc.reverse ++ a) :: splitLinesAux rest [] := by
  induction a generalizing acc with
  | nil => rw [List.nil_append, splitLinesAux_LF]; simp
  | cons c cs ih =>
    have hc := h c (by simp)
    rw [List.cons_append, splitLinesAux_cons_ne c _ acc hc.1 hc.2,
      ih (c :: acc) (fun ch hch => h ch (by simp [hch]))]
    simp

theorem splitLinesAux_append_CRLF (a : List Char) (rest acc : List Char)
    (h : ∀ ch ∈ a, ch ≠ '\n' ∧ ch ≠ '\r') :
    splitLinesAux (a ++ '\r' :: '\n' :: rest) acc
      = (acc.reverse ++ a) :: splitLinesAux rest [] := by
  induction a generalizing acc with
  | nil => rw [List.nil_append, splitLinesAux_CRLF]; simp
  | cons c cs ih =>
    have hc := h c (by simp)
    rw [List.cons_append, splitLinesAux_cons_ne c _ acc hc.1 hc.2,
      ih (c :: acc) (fun ch hch => h ch (by simp [hch]))]
    simp

theorem splitLines_append_LF (a b : String)
    (h : ∀ ch ∈ a.data, ch ≠ '\n' ∧ ch ≠ '\r') :
    splitLines (a ++ "\n" ++ b) = a :: splitLines b := by
  unfold splitLines
  rw [show (a ++ "\n" ++ b).data = a.data ++ '\n' :: b.data by simp [String.data_append]]
  rw [splitLinesAux_append_LF a.data b.data [] h]
  simp [stringMk_data]

theorem splitLines_append_CRLF (a b : String)
    (h : ∀ ch ∈ a.data, ch ≠ '\n' ∧ ch ≠ '\r') :
    splitLines (a ++ "\r\n" ++ b) = a :: splitLines b := by
  unfold splitLines
  rw [show (a ++ "\r\n" ++ b).data = a.data ++ '\r' :: '\n' :: b.data by
    simp [String.data_append]]
  rw [splitLinesAux_append_CRLF a.data b.data [] h]
  simp [stringMk_data]

/-- **C8.** The csv export splits the content on LF or CRLF, emits exactly
one double-quoted record per input line with embedded quotes doubled, joins
them with LF, the record count equals the line count, and unescaping each
record (strip the surrounding quotes, collapse doubled quotes) recovers the
original line. -/
theorem csv_roundtrip (content : String) :
    csvSerialize content = String.intercalate "\n" ((splitLines content).map csvField)
    ∧ ((splitLines content).map csvField).length = (splitLines content).length
    ∧ (∀ l ∈ splitLines content, csvUnescape (csvField l) = l)
    ∧ (∀ a b : String, (∀ ch ∈ a.data, ch ≠ '\n' ∧ ch ≠ '\r') →
        splitLines (a ++ "\n" ++ b) = a :: splitLines b
        ∧ splitLines (a ++ "\r\n" ++ b) = a :: splitLines b) :=
  ⟨rfl, by simp, fun l _ => csvUnescape_csvField l,
    fun a b h => ⟨splitLines_append_LF a b h, splitLines_append_CRLF a b h⟩⟩

/-- Witness for C8: a quoted line survives the round trip, and a CRLF
separates two lines. -/
theorem csv_roundtrip_witness :
    csvUnescape (csvField "he said \"hi\"") = "he said \"hi\""
    ∧ splitLines ("ab" ++ "\r\n" ++ "cd") = "ab" :: splitLines "cd" :=
  ⟨(csv_roundtrip "he said \"hi\"").2.2.1 "he said \"hi\"" (by decide),
   ((csv_roundtrip "x").2.2.2 "ab" "cd" (by decide)).2⟩

end MediaServer
